import Mathlib

/-!
Verification of the combat hit-resolution core and the profile/session data
model of the game backend (`src/backend/server.py`).

The SQLite tables are embedded as a `DBState` record: keyed tables become
functions from their primary key to an optional row, append-only tables become
lists.  Real-valued columns (`REAL`) are embedded as exact reals `ℝ`, so the
arithmetic of the combat resolver (`sqrt`, division, multiplication) is the
ideal arithmetic the spec describes.  Each `DB` method that mutates state is a
function `DBState → ... → Except String α × DBState`, returning the same state
on an error path, exactly as the early returns of the source do.
-/

/-- Row of the `weapons` catalog table. -/
structure Weapon where
  name : String
  base_knockback : ℝ

/-- Row of the `skills` catalog table. -/
structure Skill where
  name : String
  knockback_multiplier : ℝ

/-- Row of the `quests` catalog table. -/
structure Quest where
  title : String
  description : String

/-- Row of the `player_quests` progress table, keyed by (player_id, quest_id). -/
structure QuestRow where
  status : String
  accepted_at : Nat
  updated_at : Nat

/-- Row of the `player_profiles` table, keyed by player_id. -/
structure Profile where
  user_id : String
  display_name : String
  skill_id : Option String
  equipped_weapon_id : Option String
  pos_x : ℝ
  pos_y : ℝ
  can_receive_pvp_knockback : Bool
  attributes_json : String
  assets_json : String
  created_at : Nat

/-- Row of the `users` table, keyed by user_id. -/
structure UserRow where
  user_id : String
  username : String
  email : String
  password_hash : String
  created_at : Nat
  last_login_at : Option Nat

/-- Row of the append-only `combat_hit_events` table. -/
structure HitEvent where
  hit_id : String
  attacker_player_id : String
  target_player_id : String
  weapon_id : String
  knockback_applied_x : ℝ
  knockback_applied_y : ℝ
  was_applied : Bool
  server_reason : Option String
  created_at : Nat

/-- The dict returned by `DB.register_hit` on success. -/
structure HitOutcome where
  hit_id : String
  weapon_id : String
  distance : ℝ
  knockback_x : ℝ
  knockback_y : ℝ
  was_applied : Bool
  reason : Option String

/-- The mutable database state behind the `DB` class: one field per table.
`users` is a list because `create_user` scans it for duplicates; the keyed
tables are finite maps `key → Option row`; `combat_hit_events` is an
append-only list. -/
structure DBState where
  users : List UserRow
  player_profiles : String → Option Profile
  player_weapons_owned : String → String → Option Nat
  weapons : String → Option Weapon
  skills : String → Option Skill
  quests : String → Option Quest
  player_quests : String → String → Option QuestRow
  combat_hit_events : List HitEvent

/-- `json.dumps({"power": 10, "agility": 10})`, the default attribute bundle of
`DB.create_profile`. -/
def default_attributes_json : String := "\x7b\"power\": 10, \"agility\": 10\x7d"

/-- `json.dumps({"coins": 100})`, the default asset bundle of
`DB.create_profile`. -/
def default_assets_json : String := "\x7b\"coins\": 100\x7d"

/-- The profile row as it stands at the end of `DB.create_profile`'s
transaction: inserted with `equipped_weapon_id = NULL`, position `(0,0)` and
knockback enabled, then updated to equip `"diamond_sword"`. -/
def starter_profile (user_id display_name : String) (skill_id : Option String)
    (now : Nat) : Profile :=
  { user_id := user_id, display_name := display_name, skill_id := skill_id,
    equipped_weapon_id := some "diamond_sword", pos_x := 0, pos_y := 0,
    can_receive_pvp_knockback := true,
    attributes_json := default_attributes_json,
    assets_json := default_assets_json,
    created_at := now }

/-- The three mutations of `DB.create_profile`'s success path: insert the
profile row, insert the two starter rows into `player_weapons_owned`
(`"diamond_sword"` and `"netherite_sword"`, both obtained now), and equip the
diamond sword (already folded into `starter_profile`). -/
def grant_starters (s : DBState) (player_id : String) (now : Nat)
    (profile : Profile) : DBState :=
  { s with
      player_profiles := fun pid =>
        if pid = player_id then some profile else s.player_profiles pid,
      player_weapons_owned := fun pid wid =>
        if pid = player_id ∧ (wid = "diamond_sword" ∨ wid = "netherite_sword") then
          some now
        else s.player_weapons_owned pid wid }

/-- `DB.create_profile(user_id, display_name, skill_id)`.  The random
`player_id` and the wall clock `now` are parameters.  A given `skill_id` must
resolve in the `skills` catalog (`SKILL_NOT_FOUND`); then the profile is
inserted, the two starter swords granted, and the first equipped.  Returns the
created profile as `get_profile` does in the source. -/
def create_profile (s : DBState) (player_id : String) (now : Nat)
    (user_id display_name : String) (skill_id : Option String) :
    Except String Profile × DBState :=
  match skill_id with
  | some sid =>
    match s.skills sid with
    | none => (Except.error "SKILL_NOT_FOUND", s)
    | some _ =>
      (Except.ok (starter_profile user_id display_name skill_id now),
       grant_starters s player_id now (starter_profile user_id display_name skill_id now))
  | none =>
    (Except.ok (starter_profile user_id display_name skill_id now),
     grant_starters s player_id now (starter_profile user_id display_name skill_id now))

/-- `DB.get_profile(player_id)`: the row, or `None` when absent. -/
def get_profile (s : DBState) (player_id : String) : Option Profile :=
  s.player_profiles player_id

/-- `DB.set_profile_weapon(player_id, weapon_id)`: fails `WEAPON_NOT_OWNED`
unless `(player_id, weapon_id)` is in `player_weapons_owned`; otherwise
updates the profile row's `equipped_weapon_id`. -/
def set_profile_weapon (s : DBState) (player_id weapon_id : String) :
    Except String Unit × DBState :=
  match s.player_weapons_owned player_id weapon_id with
  | none => (Except.error "WEAPON_NOT_OWNED", s)
  | some _ =>
    (Except.ok (),
     { s with player_profiles := fun pid =>
         if pid = player_id then
           (s.player_profiles pid).map fun p => { p with equipped_weapon_id := some weapon_id }
         else s.player_profiles pid })

/-- `DB.set_profile_position(player_id, x, y)`: unconditional overwrite of the
row when it exists; returns whether a row was updated (`rowcount > 0`). -/
def set_profile_position (s : DBState) (player_id : String) (x y : ℝ) :
    Bool × DBState :=
  ((s.player_profiles player_id).isSome,
   { s with player_profiles := fun pid =>
       if pid = player_id then
         (s.player_profiles pid).map fun p => { p with pos_x := x, pos_y := y }
       else s.player_profiles pid })

/-- `DB.accept_quest(player_id, quest_id)`: fails `QUEST_NOT_FOUND` when the
quest is not in the catalog; otherwise upserts the progress row — on conflict
the original `accepted_at` is kept while `status` and `updated_at` are reset
(`ON CONFLICT ... DO UPDATE SET status='accepted', updated_at=excluded.updated_at`). -/
def accept_quest (s : DBState) (now : Nat) (player_id quest_id : String) :
    Except String Unit × DBState :=
  match s.quests quest_id with
  | none => (Except.error "QUEST_NOT_FOUND", s)
  | some _ =>
    let accepted_at : Nat :=
      match s.player_quests player_id quest_id with
      | none => now
      | some old => old.accepted_at
    (Except.ok (),
     { s with player_quests := fun p q =>
         if p = player_id ∧ q = quest_id then some ⟨"accepted", accepted_at, now⟩
         else s.player_quests p q })

/-- Python's `str.strip()` with no argument: remove leading and trailing
whitespace.  (`String.trim` is extensionally the same but does not reduce in
the kernel, so the list-recursive form is used.) -/
def pyStrip (s : String) : String :=
  ⟨((s.data.dropWhile Char.isWhitespace).reverse.dropWhile Char.isWhitespace).reverse⟩

/-- `DB.create_user(username, email, password)`.  The random `user_id`, the
wall clock `now` and the password hash are parameters.  The `INSERT` raises
`sqlite3.IntegrityError` — reported as `DUPLICATE_USER` — exactly when a row
with the same primary key or an (exactly, byte-for-byte) equal `username` or
`email` already exists: SQLite's plain `UNIQUE` constraints compare with the
default binary collation. -/
def create_user (s : DBState) (user_id : String) (now : Nat)
    (username email password_hash : String) : Except String UserRow × DBState :=
  let row : UserRow := ⟨user_id, pyStrip username, pyStrip email, password_hash, now, none⟩
  if s.users.any fun u =>
      u.user_id == user_id || u.username == pyStrip username || u.email == pyStrip email then
    (Except.error "DUPLICATE_USER", s)
  else
    (Except.ok row, { s with users := s.users ++ [row] })

/-- The invariant of the profile store: a profile's `equipped_weapon_id`, when
non-null, is a member of that profile's owned-weapons set. -/
def EquipInv (s : DBState) : Prop :=
  ∀ pid p wid, s.player_profiles pid = some p → p.equipped_weapon_id = some wid →
    (s.player_weapons_owned pid wid).isSome = true

/-- `MAX_HIT_DISTANCE = 3.0` (module-level constant, world units). -/
noncomputable def MAX_HIT_DISTANCE : ℝ := 3.0

/-- The skill-multiplier lookup inside `DB.register_hit`: `skill_mult = 1.0`,
overwritten by the catalog row's `knockback_multiplier` only when the
attacker has a `skill_id` that resolves in the `skills` table. -/
def skill_mult_of (s : DBState) (skill_id : Option String) : ℝ :=
  match skill_id with
  | none => 1.0
  | some sid =>
    match s.skills sid with
    | none => 1.0
    | some skill => skill.knockback_multiplier

/-- `DB.register_hit(attacker_player_id, target_player_id)`.  The random
`hit_id` and the wall-clock `now` are parameters.  Mirrors the source: fetch
both profiles (`PROFILE_NOT_FOUND`), require an equipped weapon
(`NO_EQUIPPED_WEAPON`), compute `distance = sqrt(dx²+dy²)` and reject
`distance > MAX_HIT_DISTANCE` (`TARGET_OUT_OF_RANGE`), resolve the weapon
(`WEAPON_NOT_FOUND`), compute `force = base_knockback * skill_mult`, take the
unit direction (defaulting to `(1,0)` at distance 0), zero the knockback when
the target has PvP knockback disabled, mutate the target position only when
applied, and always append one `combat_hit_events` row. -/
noncomputable def register_hit (s : DBState) (hit_id : String) (now : Nat)
    (attacker_player_id target_player_id : String) :
    Except String HitOutcome × DBState :=
  match s.player_profiles attacker_player_id, s.player_profiles target_player_id with
  | some attacker, some target =>
    match attacker.equipped_weapon_id with
    | some weapon_id =>
      let dx : ℝ := target.pos_x - attacker.pos_x
      let dy : ℝ := target.pos_y - attacker.pos_y
      let distance : ℝ := Real.sqrt (dx * dx + dy * dy)
      if MAX_HIT_DISTANCE < distance then (Except.error "TARGET_OUT_OF_RANGE", s)
      else
        match s.weapons weapon_id with
        | some weapon =>
          let skill_mult : ℝ := skill_mult_of s attacker.skill_id
          let force : ℝ := weapon.base_knockback * skill_mult
          let nx : ℝ := if distance = 0 then 1.0 else dx / distance
          let ny : ℝ := if distance = 0 then 0.0 else dy / distance
          let apply_knockback : Bool := target.can_receive_pvp_knockback
          let kx : ℝ := if apply_knockback then nx * force else 0.0
          let ky : ℝ := if apply_knockback then ny * force else 0.0
          let reason : Option String :=
            if apply_knockback then none else some "target_pvp_disabled"
          let profiles' : String → Option Profile :=
            if apply_knockback then
              fun pid =>
                if pid = target_player_id then
                  some { target with pos_x := target.pos_x + kx, pos_y := target.pos_y + ky }
                else s.player_profiles pid
            else s.player_profiles
          let ev : HitEvent :=
            ⟨hit_id, attacker_player_id, target_player_id, weapon_id,
             kx, ky, apply_knockback, reason, now⟩
          (Except.ok ⟨hit_id, weapon_id, distance, kx, ky, apply_knockback, reason⟩,
           { s with player_profiles := profiles',
                    combat_hit_events := s.combat_hit_events ++ [ev] })
        | none => (Except.error "WEAPON_NOT_FOUND", s)
    | none => (Except.error "NO_EQUIPPED_WEAPON", s)
  | _, _ => (Except.error "PROFILE_NOT_FOUND", s)

/-- Evaluation of the success branch of `register_hit`: once both profiles
resolve, the attacker has an equipped catalog weapon and the range check
passes, the call returns the fully computed outcome and state.  All later
claim theorems about successful hits specialize this lemma. -/
theorem register_hit_in_range_eq
    (s : DBState) (hid : String) (now : Nat) (a t : String)
    (att tgt : Profile) (wid : String) (weapon : Weapon)
    (hA : s.player_profiles a = some att) (hT : s.player_profiles t = some tgt)
    (hw : att.equipped_weapon_id = some wid)
    (hcat : s.weapons wid = some weapon)
    (hd : Real.sqrt ((tgt.pos_x - att.pos_x) * (tgt.pos_x - att.pos_x) +
                     (tgt.pos_y - att.pos_y) * (tgt.pos_y - att.pos_y))
            ≤ MAX_HIT_DISTANCE) :
    register_hit s hid now a t =
      (let dx : ℝ := tgt.pos_x - att.pos_x
       let dy : ℝ := tgt.pos_y - att.pos_y
       let distance : ℝ := Real.sqrt (dx * dx + dy * dy)
       let force : ℝ := weapon.base_knockback * skill_mult_of s att.skill_id
       let nx : ℝ := if distance = 0 then 1.0 else dx / distance
       let ny : ℝ := if distance = 0 then 0.0 else dy / distance
       let kx : ℝ := if tgt.can_receive_pvp_knockback then nx * force else 0.0
       let ky : ℝ := if tgt.can_receive_pvp_knockback then ny * force else 0.0
       let reason : Option String :=
         if tgt.can_receive_pvp_knockback then none else some "target_pvp_disabled"
       (Except.ok ⟨hid, wid, distance, kx, ky, tgt.can_receive_pvp_knockback, reason⟩,
        { s with
            player_profiles :=
              if tgt.can_receive_pvp_knockback then
                fun pid =>
                  if pid = t then
                    some { tgt with pos_x := tgt.pos_x + kx, pos_y := tgt.pos_y + ky }
                  else s.player_profiles pid
              else s.player_profiles,
            combat_hit_events := s.combat_hit_events ++
              [⟨hid, a, t, wid, kx, ky, tgt.can_receive_pvp_knockback, reason, now⟩] })) := by
  simp only [register_hit, hA, hT, hw, hcat]
  rw [if_neg (not_lt.mpr hd)]

/-- C1: for existing profiles, an equipped catalog weapon, distance at most
`MAX_HIT_DISTANCE` (and nonzero, so that the quotient direction of the claim
is meaningful), and a knockback-enabled target, `register_hit` succeeds and
the target's new position is its old position plus
`(dx/distance, dy/distance)` scaled by
`force = base_knockback * skill multiplier`. -/
theorem register_hit_applies_knockback
    (s : DBState) (hid : String) (now : Nat) (a t : String)
    (att tgt : Profile) (wid : String) (weapon : Weapon)
    (hA : s.player_profiles a = some att) (hT : s.player_profiles t = some tgt)
    (hw : att.equipped_weapon_id = some wid)
    (hcat : s.weapons wid = some weapon)
    (hd : Real.sqrt ((tgt.pos_x - att.pos_x) * (tgt.pos_x - att.pos_x) +
                     (tgt.pos_y - att.pos_y) * (tgt.pos_y - att.pos_y))
            ≤ MAX_HIT_DISTANCE)
    (hd0 : 0 < Real.sqrt ((tgt.pos_x - att.pos_x) * (tgt.pos_x - att.pos_x) +
                          (tgt.pos_y - att.pos_y) * (tgt.pos_y - att.pos_y)))
    (hk : tgt.can_receive_pvp_knockback = true) :
    (register_hit s hid now a t).1 =
      Except.ok
        ⟨hid, wid,
         Real.sqrt ((tgt.pos_x - att.pos_x) * (tgt.pos_x - att.pos_x) +
                    (tgt.pos_y - att.pos_y) * (tgt.pos_y - att.pos_y)),
         (tgt.pos_x - att.pos_x) /
             Real.sqrt ((tgt.pos_x - att.pos_x) * (tgt.pos_x - att.pos_x) +
                        (tgt.pos_y - att.pos_y) * (tgt.pos_y - att.pos_y)) *
           (weapon.base_knockback * skill_mult_of s att.skill_id),
         (tgt.pos_y - att.pos_y) /
             Real.sqrt ((tgt.pos_x - att.pos_x) * (tgt.pos_x - att.pos_x) +
                        (tgt.pos_y - att.pos_y) * (tgt.pos_y - att.pos_y)) *
           (weapon.base_knockback * skill_mult_of s att.skill_id),
         true, none⟩ ∧
    (register_hit s hid now a t).2.player_profiles t =
      some { tgt with
        pos_x := tgt.pos_x +
          (tgt.pos_x - att.pos_x) /
              Real.sqrt ((tgt.pos_x - att.pos_x) * (tgt.pos_x - att.pos_x) +
                         (tgt.pos_y - att.pos_y) * (tgt.pos_y - att.pos_y)) *
            (weapon.base_knockback * skill_mult_of s att.skill_id),
        pos_y := tgt.pos_y +
          (tgt.pos_y - att.pos_y) /
              Real.sqrt ((tgt.pos_x - att.pos_x) * (tgt.pos_x - att.pos_x) +
                         (tgt.pos_y - att.pos_y) * (tgt.pos_y - att.pos_y)) *
            (weapon.base_knockback * skill_mult_of s att.skill_id) } := by
  rw [register_hit_in_range_eq s hid now a t att tgt wid weapon hA hT hw hcat hd]
  simp only [hk, if_neg hd0.ne', if_true, if_pos rfl]
  exact ⟨trivial, trivial⟩

/-- C3: a fully validated hit on a target whose `can_receive_pvp_knockback`
flag is false still succeeds, leaves every position unchanged, appends exactly
one event with `was_applied = false`, `server_reason = "target_pvp_disabled"`
and zero knockback, and returns the zero knockback vector. -/
theorem register_hit_pvp_disabled
    (s : DBState) (hid : String) (now : Nat) (a t : String)
    (att tgt : Profile) (wid : String) (weapon : Weapon)
    (hA : s.player_profiles a = some att) (hT : s.player_profiles t = some tgt)
    (hw : att.equipped_weapon_id = some wid)
    (hcat : s.weapons wid = some weapon)
    (hd : Real.sqrt ((tgt.pos_x - att.pos_x) * (tgt.pos_x - att.pos_x) +
                     (tgt.pos_y - att.pos_y) * (tgt.pos_y - att.pos_y))
            ≤ MAX_HIT_DISTANCE)
    (hk : tgt.can_receive_pvp_knockback = false) :
    (register_hit s hid now a t).1 =
      Except.ok
        ⟨hid, wid,
         Real.sqrt ((tgt.pos_x - att.pos_x) * (tgt.pos_x - att.pos_x) +
                    (tgt.pos_y - att.pos_y) * (tgt.pos_y - att.pos_y)),
         0, 0, false, some "target_pvp_disabled"⟩ ∧
    (register_hit s hid now a t).2.player_profiles = s.player_profiles ∧
    (register_hit s hid now a t).2.combat_hit_events =
      s.combat_hit_events ++
        [⟨hid, a, t, wid, 0, 0, false, some "target_pvp_disabled", now⟩] := by
  rw [register_hit_in_range_eq s hid now a t att tgt wid weapon hA hT hw hcat hd]
  norm_num [hk]

/-- C4: when attacker and target occupy exactly the same point the distance is
0 and `register_hit` does not divide by zero: the direction defaults to
`(1.0, 0.0)`, so with knockback enabled the target is displaced by
`(force, 0)`. -/
theorem register_hit_zero_distance
    (s : DBState) (hid : String) (now : Nat) (a t : String)
    (att tgt : Profile) (wid : String) (weapon : Weapon)
    (hA : s.player_profiles a = some att) (hT : s.player_profiles t = some tgt)
    (hw : att.equipped_weapon_id = some wid)
    (hcat : s.weapons wid = some weapon)
    (hx : tgt.pos_x = att.pos_x) (hy : tgt.pos_y = att.pos_y)
    (hk : tgt.can_receive_pvp_knockback = true) :
    (register_hit s hid now a t).1 =
      Except.ok
        ⟨hid, wid, 0, weapon.base_knockback * skill_mult_of s att.skill_id, 0, true, none⟩ ∧
    (register_hit s hid now a t).2.player_profiles t =
      some { tgt with
        pos_x := tgt.pos_x + weapon.base_knockback * skill_mult_of s att.skill_id } := by
  have hdist : Real.sqrt ((tgt.pos_x - att.pos_x) * (tgt.pos_x - att.pos_x) +
      (tgt.pos_y - att.pos_y) * (tgt.pos_y - att.pos_y)) = 0 := by
    rw [hx, hy]
    simp
  have hd : Real.sqrt ((tgt.pos_x - att.pos_x) * (tgt.pos_x - att.pos_x) +
      (tgt.pos_y - att.pos_y) * (tgt.pos_y - att.pos_y)) ≤ MAX_HIT_DISTANCE := by
    rw [hdist]
    norm_num [MAX_HIT_DISTANCE]
  rw [register_hit_in_range_eq s hid now a t att tgt wid weapon hA hT hw hcat hd]
  simp only [hdist, hk, if_true, if_pos rfl]
  norm_num

/-- C10: a self-hit (attacker id = target id) with an equipped catalog weapon
and knockback enabled is not rejected: distance is 0, the direction defaults
to `(1.0, 0.0)`, the player's own x-coordinate advances by `force`, and one
event with identical attacker and target ids is appended. -/
theorem register_hit_self_hit
    (s : DBState) (hid : String) (now : Nat) (p : String)
    (prof : Profile) (wid : String) (weapon : Weapon)
    (hP : s.player_profiles p = some prof)
    (hw : prof.equipped_weapon_id = some wid)
    (hcat : s.weapons wid = some weapon)
    (hk : prof.can_receive_pvp_knockback = true) :
    (register_hit s hid now p p).1 =
      Except.ok
        ⟨hid, wid, 0, weapon.base_knockback * skill_mult_of s prof.skill_id, 0, true, none⟩ ∧
    (register_hit s hid now p p).2.player_profiles p =
      some { prof with
        pos_x := prof.pos_x + weapon.base_knockback * skill_mult_of s prof.skill_id } ∧
    (register_hit s hid now p p).2.combat_hit_events =
      s.combat_hit_events ++
        [⟨hid, p, p, wid, weapon.base_knockback * skill_mult_of s prof.skill_id, 0,
          true, none, now⟩] := by
  have hdist : Real.sqrt ((prof.pos_x - prof.pos_x) * (prof.pos_x - prof.pos_x) +
      (prof.pos_y - prof.pos_y) * (prof.pos_y - prof.pos_y)) = 0 := by
    simp
  have hd : Real.sqrt ((prof.pos_x - prof.pos_x) * (prof.pos_x - prof.pos_x) +
      (prof.pos_y - prof.pos_y) * (prof.pos_y - prof.pos_y)) ≤ MAX_HIT_DISTANCE := by
    rw [hdist]
    norm_num [MAX_HIT_DISTANCE]
  rw [register_hit_in_range_eq s hid now p p prof prof wid weapon hP hP hw hcat hd]
  simp only [hdist, hk, if_true, if_pos rfl]
  norm_num

/-- C6: a hit whose attacker has no skill, or a skill id absent from the
catalog, does not fail on the skill: `register_hit` still succeeds, the
multiplier of `skill_mult_of` silently defaults to 1.0 (so the force is the
weapon's bare `base_knockback`), and when the skill id resolves the
multiplier is that skill's `knockback_multiplier`. -/
theorem register_hit_skill_defaults
    (s : DBState) (hid : String) (now : Nat) (a t : String)
    (att tgt : Profile) (wid : String) (weapon : Weapon)
    (hA : s.player_profiles a = some att) (hT : s.player_profiles t = some tgt)
    (hw : att.equipped_weapon_id = some wid)
    (hcat : s.weapons wid = some weapon)
    (hd : Real.sqrt ((tgt.pos_x - att.pos_x) * (tgt.pos_x - att.pos_x) +
                     (tgt.pos_y - att.pos_y) * (tgt.pos_y - att.pos_y))
            ≤ MAX_HIT_DISTANCE) :
    (∃ o, (register_hit s hid now a t).1 = Except.ok o) ∧
    (att.skill_id = none → skill_mult_of s att.skill_id = 1.0) ∧
    (∀ sid, att.skill_id = some sid → s.skills sid = none →
      skill_mult_of s att.skill_id = 1.0) ∧
    (∀ sid skill, att.skill_id = some sid → s.skills sid = some skill →
      skill_mult_of s att.skill_id = skill.knockback_multiplier) := by
  refine ⟨?_, ?_, ?_, ?_⟩
  · exact ⟨_, by rw [register_hit_in_range_eq s hid now a t att tgt wid weapon hA hT hw hcat hd]⟩
  · intro h
    simp [skill_mult_of, h]
  · intro sid h hs
    simp [skill_mult_of, h, hs]
  · intro sid skill h hs
    simp [skill_mult_of, h, hs]

/-- C2: with both profiles present and an equipped weapon, a target strictly
farther than `MAX_HIT_DISTANCE = 3.0` makes `register_hit` fail with
`TARGET_OUT_OF_RANGE` and leave the whole state (positions and event log
included) unchanged. -/
theorem register_hit_out_of_range
    (s : DBState) (hid : String) (now : Nat) (a t : String) (att tgt : Profile) (wid : String)
    (hA : s.player_profiles a = some att) (hT : s.player_profiles t = some tgt)
    (hw : att.equipped_weapon_id = some wid)
    (hd : MAX_HIT_DISTANCE <
      Real.sqrt ((tgt.pos_x - att.pos_x) * (tgt.pos_x - att.pos_x) +
                 (tgt.pos_y - att.pos_y) * (tgt.pos_y - att.pos_y))) :
    register_hit s hid now a t = (Except.error "TARGET_OUT_OF_RANGE", s) := by
  simp only [register_hit, hA, hT, hw]
  rw [if_pos hd]

/-- Insertion of a fresh starter profile keeps the equip invariant: the new
row equips `"diamond_sword"`, which the same transaction grants. -/
theorem equipInv_grant_starters (s : DBState) (player_id : String) (now : Nat)
    (profile : Profile) (hp : profile.equipped_weapon_id = some "diamond_sword")
    (hinv : EquipInv s) :
    EquipInv (grant_starters s player_id now profile) := by
  intro pid p wid hrow he
  simp only [grant_starters] at hrow ⊢
  by_cases h : pid = player_id
  · subst h
    rw [if_pos rfl] at hrow
    cases hrow
    rw [hp] at he
    cases he
    simp
  · rw [if_neg h] at hrow
    rw [if_neg (by simp [h])]
    exact hinv pid p wid hrow he

/-- C5: the profile-store operations preserve the invariant that a non-null
`equipped_weapon_id` is in the profile's owned-weapons set: `create_profile`
(on a fresh player id) grants the two starter weapons and equips the first of
them, and `set_profile_weapon` refuses any weapon not in the owned set;
`set_profile_position` and `accept_quest` do not touch weapons. -/
theorem profile_ops_preserve_equip_invariant :
    (∀ s pid now uid dn skid, EquipInv s → s.player_profiles pid = none →
      EquipInv (create_profile s pid now uid dn skid).2 ∧
      (∀ pr, (create_profile s pid now uid dn skid).1 = Except.ok pr →
        ((create_profile s pid now uid dn skid).2.player_weapons_owned
            pid "diamond_sword").isSome = true ∧
        ((create_profile s pid now uid dn skid).2.player_weapons_owned
            pid "netherite_sword").isSome = true ∧
        ∃ p, (create_profile s pid now uid dn skid).2.player_profiles pid = some p ∧
          p.equipped_weapon_id = some "diamond_sword")) ∧
    (∀ s pid wid, EquipInv s → EquipInv (set_profile_weapon s pid wid).2) ∧
    (∀ s pid x y, EquipInv s → EquipInv (set_profile_position s pid x y).2) ∧
    (∀ s now pid qid, EquipInv s → EquipInv (accept_quest s now pid qid).2) := by
  refine ⟨?_, ?_, ?_, ?_⟩
  · intro s pid now uid dn skid hinv _
    have hgrant : ∀ pr,
        EquipInv (grant_starters s pid now pr) →
        ((grant_starters s pid now pr).player_weapons_owned pid "diamond_sword").isSome = true ∧
        ((grant_starters s pid now pr).player_weapons_owned pid "netherite_sword").isSome = true ∧
        (grant_starters s pid now pr).player_profiles pid = some pr := by
      intro pr _
      refine ⟨?_, ?_, ?_⟩ <;> simp [grant_starters]
    rcases skid with _ | sid
    · refine ⟨equipInv_grant_starters s pid now _ rfl hinv, ?_⟩
      intro pr _
      obtain ⟨h1, h2, h3⟩ := hgrant (starter_profile uid dn none now)
        (equipInv_grant_starters s pid now _ rfl hinv)
      exact ⟨h1, h2, _, h3, rfl⟩
    · cases hs : s.skills sid
      · constructor
        · simpa [create_profile, hs] using hinv
        · intro pr hpr
          simp [create_profile, hs] at hpr
      · refine ⟨?_, ?_⟩
        · simpa [create_profile, hs] using
            equipInv_grant_starters s pid now _ rfl hinv
        · intro pr _
          obtain ⟨h1, h2, h3⟩ := hgrant (starter_profile uid dn (some sid) now)
            (equipInv_grant_starters s pid now _ rfl hinv)
          simp only [create_profile, hs]
          exact ⟨h1, h2, _, h3, rfl⟩
  · intro s pid wid hinv pid' p wid' hrow he
    cases how : s.player_weapons_owned pid wid with
    | none => 
      rw [show (set_profile_weapon s pid wid).2 = s by simp [set_profile_weapon, how]] at hrow ⊢
      exact hinv pid' p wid' hrow he
    | some ts =>
      simp only [set_profile_weapon, how] at hrow ⊢
      by_cases h : pid' = pid
      · subst h
        rw [if_pos rfl] at hrow
        cases hq : s.player_profiles pid' with
        | none => rw [hq] at hrow; cases hrow
        | some q =>
          rw [hq] at hrow
          cases hrow
          rw [show ({ q with equipped_weapon_id := some wid } : Profile).equipped_weapon_id
              = some wid from rfl] at he
          cases he
          rw [how]
          rfl
      · rw [if_neg h] at hrow
        exact hinv pid' p wid' hrow he
  · intro s pid x y hinv pid' p wid' hrow he
    simp only [set_profile_position] at hrow ⊢
    by_cases h : pid' = pid
    · subst h
      rw [if_pos rfl] at hrow
      cases hq : s.player_profiles pid' with
      | none => rw [hq] at hrow; cases hrow
      | some q =>
        rw [hq] at hrow
        cases hrow
        exact hinv pid' q wid' hq he
    · rw [if_neg h] at hrow
      exact hinv pid' p wid' hrow he
  · intro s now pid qid hinv pid' p wid' hrow he
    cases hq : s.quests qid with
    | none =>
      rw [show (accept_quest s now pid qid).2 = s by simp [accept_quest, hq]] at hrow ⊢
      exact hinv pid' p wid' hrow he
    | some q =>
      simp only [accept_quest, hq] at hrow ⊢
      exact hinv pid' p wid' hrow he

/-- C7: `set_profile_weapon` fails `WEAPON_NOT_OWNED` (leaving the state
unchanged) exactly when `(player_id, weapon_id)` is not in
`player_weapons_owned`; when the weapon is owned it succeeds and a subsequent
`get_profile` shows the weapon equipped. -/
theorem set_profile_weapon_owned_iff
    (s : DBState) (pid wid : String) :
    (s.player_weapons_owned pid wid = none →
      set_profile_weapon s pid wid = (Except.error "WEAPON_NOT_OWNED", s)) ∧
    (∀ ts, s.player_weapons_owned pid wid = some ts →
      (set_profile_weapon s pid wid).1 = Except.ok () ∧
      ∀ p, s.player_profiles pid = some p →
        get_profile (set_profile_weapon s pid wid).2 pid =
          some { p with equipped_weapon_id := some wid }) := by
  constructor
  · intro h
    simp [set_profile_weapon, h]
  · intro ts h
    constructor
    · simp [set_profile_weapon, h]
    · intro p hp
      simp [set_profile_weapon, h, get_profile, hp]

/-- C8: `accept_quest` fails `QUEST_NOT_FOUND` (state unchanged) exactly when
the quest id is not in the catalog; accepting a known quest twice for the same
player succeeds both times and leaves a single progress row with status
`"accepted"` whose `updated_at` is the later acceptance time, all other
progress entries unchanged. -/
theorem accept_quest_upsert
    (s : DBState) (pid qid : String) :
    (s.quests qid = none → ∀ now,
      accept_quest s now pid qid = (Except.error "QUEST_NOT_FOUND", s)) ∧
    (∀ q, s.quests qid = some q → ∀ t1 t2,
      (accept_quest s t1 pid qid).1 = Except.ok () ∧
      (accept_quest (accept_quest s t1 pid qid).2 t2 pid qid).1 = Except.ok () ∧
      (∃ r, (accept_quest (accept_quest s t1 pid qid).2 t2 pid qid).2.player_quests
              pid qid = some r ∧
            r.status = "accepted" ∧ r.updated_at = t2) ∧
      (∀ p q', ¬(p = pid ∧ q' = qid) →
        (accept_quest (accept_quest s t1 pid qid).2 t2 pid qid).2.player_quests p q' =
          s.player_quests p q')) := by
  constructor
  · intro h now
    simp [accept_quest, h]
  · intro q hq t1 t2
    refine ⟨by simp [accept_quest, hq], ?_, ?_, ?_⟩
    · simp [accept_quest, hq]
    · refine ⟨⟨"accepted",
        (match s.player_quests pid qid with
          | none => t1
          | some old => old.accepted_at), t2⟩, ?_, rfl, rfl⟩
      simp [accept_quest, hq]
    · intro p q' hne
      simp [accept_quest, hq, if_neg hne]

/-- Closed-form square roots for the concrete examples. -/
theorem sqrt_eval (a b : ℝ) (hb : 0 ≤ b) (h : a = b * b) : Real.sqrt a = b := by
  rw [h]
  exact Real.sqrt_mul_self hb

/-- The seeded `weapons` catalog of `DB._seed_static_data`. -/
def seed_weapons : String → Option Weapon := fun wid =>
  if wid = "diamond_sword" then some ⟨"Diamond Sword", 12.0⟩
  else if wid = "netherite_sword" then some ⟨"Netherite Sword", 12.0⟩
  else none

/-- The seeded `skills` catalog of `DB._seed_static_data`. -/
def seed_skills : String → Option Skill := fun sid =>
  if sid = "novice" then some ⟨"Novice", 1.0⟩
  else if sid = "heavy_strike" then some ⟨"Heavy Strike", 1.2⟩
  else none

/-- The seeded `quests` catalog of `DB._seed_static_data`. -/
def seed_quests : String → Option Quest := fun qid =>
  if qid = "welcome_duel" then some ⟨"Welcome Duel", "Land one valid hit in PvP."⟩
  else if qid = "step_master" then some ⟨"Step Master", "Reach position x=10, y=10."⟩
  else none

/-- Freshly seeded database with no users, profiles or events. -/
def empty_state : DBState :=
  { users := [],
    player_profiles := fun _ => none,
    player_weapons_owned := fun _ _ => none,
    weapons := seed_weapons,
    skills := seed_skills,
    quests := seed_quests,
    player_quests := fun _ _ => none,
    combat_hit_events := [] }

/-- Attacker of the worked spec example: at `(0,0)` with the diamond sword
(`base_knockback = 12.0`) and the `heavy_strike` skill (multiplier 1.2). -/
def attacker_profile : Profile :=
  { user_id := "u1", display_name := "Attacker", skill_id := some "heavy_strike",
    equipped_weapon_id := some "diamond_sword", pos_x := 0, pos_y := 0,
    can_receive_pvp_knockback := true, attributes_json := default_attributes_json,
    assets_json := default_assets_json, created_at := 0 }

/-- Target of the worked spec example: at `(2,0)`, knockback enabled. -/
def near_target_profile : Profile :=
  { user_id := "u2", display_name := "Near", skill_id := none,
    equipped_weapon_id := some "diamond_sword", pos_x := 2, pos_y := 0,
    can_receive_pvp_knockback := true, attributes_json := default_attributes_json,
    assets_json := default_assets_json, created_at := 0 }

/-- A target at `(5,0)`: distance 5 from the attacker, out of range. -/
def far_target_profile : Profile :=
  { user_id := "u3", display_name := "Far", skill_id := none,
    equipped_weapon_id := some "diamond_sword", pos_x := 5, pos_y := 0,
    can_receive_pvp_knockback := true, attributes_json := default_attributes_json,
    assets_json := default_assets_json, created_at := 0 }

/-- A target at `(1,0)` with `can_receive_pvp_knockback = false`. -/
def shielded_target_profile : Profile :=
  { user_id := "u4", display_name := "Shielded", skill_id := none,
    equipped_weapon_id := some "diamond_sword", pos_x := 1, pos_y := 0,
    can_receive_pvp_knockback := false, attributes_json := default_attributes_json,
    assets_json := default_assets_json, created_at := 0 }

/-- An attacker at `(0,0)` whose `skill_id` does not resolve in the catalog. -/
def unskilled_attacker_profile : Profile :=
  { user_id := "u5", display_name := "Unskilled", skill_id := some "ghost_skill",
    equipped_weapon_id := some "diamond_sword", pos_x := 0, pos_y := 0,
    can_receive_pvp_knockback := true, attributes_json := default_attributes_json,
    assets_json := default_assets_json, created_at := 0 }

/-- Seeded database populated with the five demo profiles `p1`–`p5`, each
owning both starter swords. -/
def demo_state : DBState :=
  { users := [],
    player_profiles := fun pid =>
      if pid = "p1" then some attacker_profile
      else if pid = "p2" then some near_target_profile
      else if pid = "p3" then some far_target_profile
      else if pid = "p4" then some shielded_target_profile
      else if pid = "p5" then some unskilled_attacker_profile
      else none,
    player_weapons_owned := fun pid wid =>
      if (pid = "p1" ∨ pid = "p2" ∨ pid = "p3" ∨ pid = "p4" ∨ pid = "p5") ∧
         (wid = "diamond_sword" ∨ wid = "netherite_sword") then some 0
      else none,
    weapons := seed_weapons,
    skills := seed_skills,
    quests := seed_quests,
    player_quests := fun _ _ => none,
    combat_hit_events := [] }

/-- Single-user database: `alice` / `alice@example.com` registered. -/
def users_demo_state : DBState :=
  { users := [⟨"u1", "alice", "alice@example.com", "h1", 0, none⟩],
    player_profiles := fun _ => none,
    player_weapons_owned := fun _ _ => none,
    weapons := seed_weapons,
    skills := seed_skills,
    quests := seed_quests,
    player_quests := fun _ _ => none,
    combat_hit_events := [] }

/-- C9 counterexample: with `alice` / `alice@example.com` registered, creating
a user whose username and email differ from the existing row only in letter
case does NOT fail with `DUPLICATE_USER`: the insert succeeds and a second row
is created, because SQLite's plain `UNIQUE` constraints compare with the
default binary (case-sensitive) collation. -/
theorem create_user_case_counterexample :
    (create_user users_demo_state "u2" 5 "Alice" "ALICE@example.com" "h2").1 ≠
      Except.error "DUPLICATE_USER" ∧
    (create_user users_demo_state "u2" 5 "Alice" "ALICE@example.com" "h2").1 =
      Except.ok ⟨"u2", "Alice", "ALICE@example.com", "h2", 5, none⟩ ∧
    (create_user users_demo_state "u2" 5 "Alice" "ALICE@example.com" "h2").2.users =
      [⟨"u1", "alice", "alice@example.com", "h1", 0, none⟩,
       ⟨"u2", "Alice", "ALICE@example.com", "h2", 5, none⟩] := by
  have hok : (create_user users_demo_state "u2" 5 "Alice" "ALICE@example.com" "h2").1 =
      Except.ok ⟨"u2", "Alice", "ALICE@example.com", "h2", 5, none⟩ := rfl
  refine ⟨?_, hok, rfl⟩
  rw [hok]
  intro h
  cases h

/-- C9 as amended: user identities are unique on username and email under
exact (case-sensitive, byte-for-byte) comparison: creating a second user whose
trimmed username or trimmed email exactly equals an existing row's fails with
`DUPLICATE_USER` and creates no row.  Case-variants are not rejected (see the
counterexample). -/
theorem create_user_exact_duplicate
    (s : DBState) (uid : String) (now : Nat) (un em pw : String)
    (h : ∃ u ∈ s.users, u.username = pyStrip un ∨ u.email = pyStrip em) :
    create_user s uid now un em pw = (Except.error "DUPLICATE_USER", s) := by
  obtain ⟨u, hu, hcase⟩ := h
  have hany : (s.users.any fun u =>
      u.user_id == uid || u.username == pyStrip un || u.email == pyStrip em) = true := by
    rw [List.any_eq_true]
    refine ⟨u, hu, ?_⟩
    rcases hcase with h | h <;> simp [h]
  simp [create_user, hany]

/-- Witness for the amended C9 theorem: re-registering the exact username
`alice` is refused and the user table is left unchanged. -/
theorem create_user_exact_duplicate_witness :
    create_user users_demo_state "u3" 7 "alice" "other@example.com" "h3" =
      (Except.error "DUPLICATE_USER", users_demo_state) :=
  create_user_exact_duplicate users_demo_state "u3" 7 "alice" "other@example.com" "h3"
    ⟨⟨"u1", "alice", "alice@example.com", "h1", 0, none⟩, by simp [users_demo_state],
      Or.inl rfl⟩

/-- Witness for C1 at the spec's worked example: attacker `p1` at `(0,0)` with
`base_knockback = 12.0` and skill multiplier `1.2` hits target `p2` at
`(2,0)`: distance 2, knockback `(14.4, 0)`, new position `(16.4, 0)`. -/
theorem register_hit_applies_knockback_witness :
    (register_hit demo_state "h1" 0 "p1" "p2").1 =
      Except.ok ⟨"h1", "diamond_sword", 2, 14.4, 0, true, none⟩ ∧
    (register_hit demo_state "h1" 0 "p1" "p2").2.player_profiles "p2" =
      some { near_target_profile with pos_x := 16.4, pos_y := 0 } := by
  have hdist : Real.sqrt
      ((near_target_profile.pos_x - attacker_profile.pos_x) *
        (near_target_profile.pos_x - attacker_profile.pos_x) +
       (near_target_profile.pos_y - attacker_profile.pos_y) *
        (near_target_profile.pos_y - attacker_profile.pos_y)) = 2 :=
    sqrt_eval _ 2 (by norm_num) (by norm_num [near_target_profile, attacker_profile])
  have h := register_hit_applies_knockback demo_state "h1" 0 "p1" "p2"
    attacker_profile near_target_profile "diamond_sword" ⟨"Diamond Sword", 12.0⟩
    rfl rfl rfl rfl (by rw [hdist]; norm_num [MAX_HIT_DISTANCE])
    (by rw [hdist]; norm_num) rfl
  obtain ⟨h1, h2⟩ := h
  rw [hdist] at h1 h2
  have hsm : skill_mult_of demo_state attacker_profile.skill_id = 1.2 := rfl
  rw [hsm] at h1 h2
  constructor
  · rw [h1]
    norm_num [near_target_profile, attacker_profile]
  · rw [h2]
    norm_num [near_target_profile, attacker_profile]

/-- Witness for C2: `p1` at `(0,0)` attacks `p3` at `(5,0)`: distance 5 > 3,
so `register_hit` fails `TARGET_OUT_OF_RANGE` and the state is unchanged. -/
theorem register_hit_out_of_range_witness :
    register_hit demo_state "h2" 0 "p1" "p3" =
      (Except.error "TARGET_OUT_OF_RANGE", demo_state) := by
  have hdist : Real.sqrt
      ((far_target_profile.pos_x - attacker_profile.pos_x) *
        (far_target_profile.pos_x - attacker_profile.pos_x) +
       (far_target_profile.pos_y - attacker_profile.pos_y) *
        (far_target_profile.pos_y - attacker_profile.pos_y)) = 5 :=
    sqrt_eval _ 5 (by norm_num) (by norm_num [far_target_profile, attacker_profile])
  exact register_hit_out_of_range demo_state "h2" 0 "p1" "p3" attacker_profile
    far_target_profile "diamond_sword" rfl rfl rfl
    (by rw [hdist]; norm_num [MAX_HIT_DISTANCE])

/-- Witness for C3: `p1` hits shielded `p4` at `(1,0)`: the call succeeds with
zero knockback, positions are untouched, and exactly one suppressed event is
logged. -/
theorem register_hit_pvp_disabled_witness :
    (register_hit demo_state "h3" 0 "p1" "p4").1 =
      Except.ok ⟨"h3", "diamond_sword", 1, 0, 0, false, some "target_pvp_disabled"⟩ ∧
    (register_hit demo_state "h3" 0 "p1" "p4").2.player_profiles =
      demo_state.player_profiles ∧
    (register_hit demo_state "h3" 0 "p1" "p4").2.combat_hit_events =
      [⟨"h3", "p1", "p4", "diamond_sword", 0, 0, false, some "target_pvp_disabled", 0⟩] := by
  have hdist : Real.sqrt
      ((shielded_target_profile.pos_x - attacker_profile.pos_x) *
        (shielded_target_profile.pos_x - attacker_profile.pos_x) +
       (shielded_target_profile.pos_y - attacker_profile.pos_y) *
        (shielded_target_profile.pos_y - attacker_profile.pos_y)) = 1 :=
    sqrt_eval _ 1 (by norm_num) (by norm_num [shielded_target_profile, attacker_profile])
  have h := register_hit_pvp_disabled demo_state "h3" 0 "p1" "p4" attacker_profile
    shielded_target_profile "diamond_sword" ⟨"Diamond Sword", 12.0⟩ rfl rfl rfl rfl
    (by rw [hdist]; norm_num [MAX_HIT_DISTANCE]) rfl
  obtain ⟨h1, h2, h3⟩ := h
  refine ⟨?_, h2, ?_⟩
  · rw [h1, hdist]
  · rw [h3]
    rfl

/-- Witness for C4: `p1` hits `p5`, both at `(0,0)`: no division by zero, the
target is pushed along `(1,0)` to `(14.4, 0)`. -/
theorem register_hit_zero_distance_witness :
    (register_hit demo_state "h4" 0 "p1" "p5").1 =
      Except.ok ⟨"h4", "diamond_sword", 0, 14.4, 0, true, none⟩ ∧
    (register_hit demo_state "h4" 0 "p1" "p5").2.player_profiles "p5" =
      some { unskilled_attacker_profile with pos_x := 14.4 } := by
  have h := register_hit_zero_distance demo_state "h4" 0 "p1" "p5" attacker_profile
    unskilled_attacker_profile "diamond_sword" ⟨"Diamond Sword", 12.0⟩
    rfl rfl rfl rfl rfl rfl rfl
  have hsm : skill_mult_of demo_state attacker_profile.skill_id = 1.2 := rfl
  rw [hsm] at h
  obtain ⟨h1, h2⟩ := h
  constructor
  · rw [h1]
    norm_num
  · rw [h2]
    norm_num [unskilled_attacker_profile]

/-- Witness for C10: `p1` hits itself: the self-hit is accepted, `p1` moves
from `(0,0)` to `(14.4, 0)`, and the logged event has attacker = target. -/
theorem register_hit_self_hit_witness :
    (register_hit demo_state "h5" 0 "p1" "p1").1 =
      Except.ok ⟨"h5", "diamond_sword", 0, 14.4, 0, true, none⟩ ∧
    (register_hit demo_state "h5" 0 "p1" "p1").2.player_profiles "p1" =
      some { attacker_profile with pos_x := 14.4 } ∧
    (register_hit demo_state "h5" 0 "p1" "p1").2.combat_hit_events =
      [⟨"h5", "p1", "p1", "diamond_sword", 14.4, 0, true, none, 0⟩] := by
  have h := register_hit_self_hit demo_state "h5" 0 "p1" attacker_profile
    "diamond_sword" ⟨"Diamond Sword", 12.0⟩ rfl rfl rfl rfl
  have hsm : skill_mult_of demo_state attacker_profile.skill_id = 1.2 := rfl
  rw [hsm] at h
  obtain ⟨h1, h2, h3⟩ := h
  refine ⟨?_, ?_, ?_⟩
  · rw [h1]
    norm_num
  · rw [h2]
    norm_num [attacker_profile]
  · rw [h3]
    norm_num [demo_state]

/-- Witness for C6: `p5`, whose `skill_id = "ghost_skill"` is absent from the
catalog, hits `p2` within range: the hit still succeeds and the multiplier
defaults to 1.0. -/
theorem register_hit_skill_defaults_witness :
    (∃ o, (register_hit demo_state "h6" 0 "p5" "p2").1 = Except.ok o) ∧
    skill_mult_of demo_state unskilled_attacker_profile.skill_id = 1.0 := by
  have hdist : Real.sqrt
      ((near_target_profile.pos_x - unskilled_attacker_profile.pos_x) *
        (near_target_profile.pos_x - unskilled_attacker_profile.pos_x) +
       (near_target_profile.pos_y - unskilled_attacker_profile.pos_y) *
        (near_target_profile.pos_y - unskilled_attacker_profile.pos_y)) = 2 :=
    sqrt_eval _ 2 (by norm_num)
      (by norm_num [near_target_profile, unskilled_attacker_profile])
  have h := register_hit_skill_defaults demo_state "h6" 0 "p5" "p2"
    unskilled_attacker_profile near_target_profile "diamond_sword" ⟨"Diamond Sword", 12.0⟩
    rfl rfl rfl rfl (by rw [hdist]; norm_num [MAX_HIT_DISTANCE])
  exact ⟨h.1, h.2.2.1 "ghost_skill" rfl rfl⟩

/-- Witness for C5: creating a profile `p9` in the freshly seeded store
establishes the equip invariant, grants both starter swords with the diamond
sword equipped, and a follow-up equip of the owned netherite sword keeps the
invariant. -/
theorem profile_ops_preserve_equip_invariant_witness :
    EquipInv (create_profile empty_state "p9" 3 "u9" "Nine" none).2 ∧
    ((create_profile empty_state "p9" 3 "u9" "Nine" none).2.player_weapons_owned
        "p9" "diamond_sword").isSome = true ∧
    ((create_profile empty_state "p9" 3 "u9" "Nine" none).2.player_weapons_owned
        "p9" "netherite_sword").isSome = true ∧
    (∃ p, (create_profile empty_state "p9" 3 "u9" "Nine" none).2.player_profiles "p9" =
        some p ∧ p.equipped_weapon_id = some "diamond_sword") ∧
    EquipInv (set_profile_weapon
        (create_profile empty_state "p9" 3 "u9" "Nine" none).2 "p9" "netherite_sword").2 := by
  have hinv : EquipInv empty_state := fun pid p wid hp _ => Option.noConfusion hp
  obtain ⟨hc, hw, _, _⟩ := profile_ops_preserve_equip_invariant
  obtain ⟨h1, h2⟩ := hc empty_state "p9" 3 "u9" "Nine" none hinv rfl
  obtain ⟨hd1, hd2, hp⟩ := h2 _ rfl
  exact ⟨h1, hd1, hd2, hp, hw _ "p9" "netherite_sword" h1⟩

/-- Witness for C7: equipping the unowned `ghost_blade` on `p1` fails
`WEAPON_NOT_OWNED` with no state change; equipping the owned
`netherite_sword` succeeds and is visible in the next `get_profile`. -/
theorem set_profile_weapon_owned_iff_witness :
    set_profile_weapon demo_state "p1" "ghost_blade" =
      (Except.error "WEAPON_NOT_OWNED", demo_state) ∧
    (set_profile_weapon demo_state "p1" "netherite_sword").1 = Except.ok () ∧
    get_profile (set_profile_weapon demo_state "p1" "netherite_sword").2 "p1" =
      some { attacker_profile with equipped_weapon_id := some "netherite_sword" } := by
  have h1 := (set_profile_weapon_owned_iff demo_state "p1" "ghost_blade").1 rfl
  have h2 := (set_profile_weapon_owned_iff demo_state "p1" "netherite_sword").2 0 rfl
  exact ⟨h1, h2.1, h2.2 attacker_profile rfl⟩

/-- Witness for C8: accepting the unknown `ghost_quest` fails
`QUEST_NOT_FOUND`; accepting `welcome_duel` at time 10 and again at time 20
succeeds both times and leaves one row `("accepted", 10, 20)`. -/
theorem accept_quest_upsert_witness :
    accept_quest demo_state 9 "p1" "ghost_quest" =
      (Except.error "QUEST_NOT_FOUND", demo_state) ∧
    (accept_quest demo_state 10 "p1" "welcome_duel").1 = Except.ok () ∧
    (accept_quest (accept_quest demo_state 10 "p1" "welcome_duel").2
        20 "p1" "welcome_duel").1 = Except.ok () ∧
    (accept_quest (accept_quest demo_state 10 "p1" "welcome_duel").2
        20 "p1" "welcome_duel").2.player_quests "p1" "welcome_duel" =
      some ⟨"accepted", 10, 20⟩ := by
  have h1 := (accept_quest_upsert demo_state "p1" "ghost_quest").1 rfl 9
  have h2 := (accept_quest_upsert demo_state "p1" "welcome_duel").2
    ⟨"Welcome Duel", "Land one valid hit in PvP."⟩ rfl 10 20
  exact ⟨h1, h2.1, h2.2.1, rfl⟩
